import Mathlib

/-!
# Verification of the airlinesAPI-rust authentication / update core

A shallow embedding of the repository's authentication core
(`src/auth/mod.rs`), identity-extraction middleware
(`src/middleware/auth.rs`), error taxonomy (`src/error.rs`,
`src/db/mod.rs`), and the user model's dynamic update builder and
password verification (`src/models/user.rs`, `src/handlers/auth.rs`).

Rust `String`/`&str` values are modelled as `List Char` (written `Str`).
Timestamps are modelled as `Int` seconds since the Unix epoch (chrono's
`timestamp()`); the `as usize` narrowing in the source is modelled by
`usizeCast`.  Fallible Rust code returning `Result<T, AppError>` is
modelled by `Outcome`, which also has an explicit `panic` constructor
for the places where the source calls `expect` or performs an
out-of-bounds slice.
-/

/-- Rust strings, modelled at character granularity. -/
abbrev Str := List Char

/-- Shorthand for turning a Lean string literal into the model's
character-list strings. -/
def str (s : String) : Str := s.data

/-- The `as usize` cast applied to an `i64` value in the source
(`expires_at.timestamp() as usize`): reduce modulo `2^64`. -/
def usizeCast (i : Int) : Nat := (i % (2 ^ 64 : Int)).toNat

/-! ## Decimal rendering and parsing

`i32::to_string` / `str::parse::<i32>` (and the `i64` parse used by
`parse_duration`) are modelled character by character.  Rendering uses
an explicit fuel argument so that it is structurally recursive and
kernel-reducible. -/

/-- The ASCII digit character for a digit value `d < 10`. -/
def digitChar (d : Nat) : Char := Char.ofNat (48 + d)

/-- Big-endian decimal rendering of a positive number, fuelled. -/
def natReprAux : Nat → Nat → Str
  | 0, _ => []
  | _ + 1, 0 => []
  | fuel + 1, n + 1 => natReprAux fuel ((n + 1) / 10) ++ [digitChar ((n + 1) % 10)]

/-- Decimal rendering of a `Nat`, as `u32::to_string` renders it. -/
def natRepr (n : Nat) : Str :=
  if n = 0 then ['0'] else natReprAux n n

/-- `i32::to_string`: optional minus sign followed by the decimal
magnitude. -/
def i32ToString (n : Int) : Str :=
  if n < 0 then '-' :: natRepr n.natAbs else natRepr n.toNat

/-- Is `c` an ASCII decimal digit? -/
def isDigitCh (c : Char) : Bool := 48 ≤ c.toNat ∧ c.toNat ≤ 57

/-- Accumulator loop of the decimal parser: consumes digit characters,
fails on anything else. -/
def parseNatGo : Nat → Str → Option Nat
  | acc, [] => some acc
  | acc, c :: cs =>
    if isDigitCh c then parseNatGo (acc * 10 + (c.toNat - 48)) cs else none

/-- Parse a non-empty all-digits string as a `Nat`. -/
def parseNatAll (cs : Str) : Option Nat :=
  match cs with
  | [] => none
  | _ => parseNatGo 0 cs

/-- `str::parse::<i32>`: optional sign, then digits, with the `i32`
range check (overflow is a parse error). -/
def parseI32 (cs : Str) : Option Int :=
  match cs with
  | [] => none
  | c :: rest =>
    if c = '-' then
      (parseNatAll rest).bind fun n =>
        if (n : Int) ≤ 2 ^ 31 then some (-(n : Int)) else none
    else if c = '+' then
      (parseNatAll rest).bind fun n =>
        if (n : Int) < 2 ^ 31 then some ((n : Int)) else none
    else
      (parseNatAll (c :: rest)).bind fun n =>
        if (n : Int) < 2 ^ 31 then some ((n : Int)) else none

/-- `str::parse::<i64>`: optional sign, then digits, with the `i64`
range check (overflow is a parse error). -/
def parseI64 (cs : Str) : Option Int :=
  match cs with
  | [] => none
  | c :: rest =>
    if c = '-' then
      (parseNatAll rest).bind fun n =>
        if (n : Int) ≤ 2 ^ 63 then some (-(n : Int)) else none
    else if c = '+' then
      (parseNatAll rest).bind fun n =>
        if (n : Int) < 2 ^ 63 then some ((n : Int)) else none
    else
      (parseNatAll (c :: rest)).bind fun n =>
        if (n : Int) < 2 ^ 63 then some ((n : Int)) else none

/-! ### Round-trip lemmas for the decimal codec -/

theorem isDigitCh_digitChar {d : Nat} (hd : d < 10) : isDigitCh (digitChar d) = true := by
  interval_cases d <;> decide

theorem digitChar_toNat {d : Nat} (hd : d < 10) : (digitChar d).toNat = 48 + d := by
  interval_cases d <;> decide

theorem natReprAux_eq_digits :
    ∀ fuel n, n ≤ fuel → natReprAux fuel n = (Nat.digits 10 n).reverse.map digitChar := by
  intro fuel
  induction fuel with
  | zero => intro n hn; interval_cases n; simp [natReprAux]
  | succ f ih =>
    intro n hn
    match n with
    | 0 => simp [natReprAux]
    | m + 1 =>
      rw [natReprAux, ih ((m + 1) / 10) (by omega)]
      rw [Nat.digits_def' (by norm_num : 1 < 10) (by omega : 0 < m + 1)]
      simp [List.reverse_cons]

theorem parseNatGo_digits :
    ∀ (cs : Str) (acc : Nat), (∀ c ∈ cs, isDigitCh c = true) →
      parseNatGo acc cs = some (cs.foldl (fun a c => a * 10 + (c.toNat - 48)) acc) := by
  intro cs
  induction cs with
  | nil => intro acc _; rfl
  | cons c t ih =>
    intro acc hall
    rw [parseNatGo, if_pos (hall c (List.mem_cons_self c t)), List.foldl_cons]
    exact ih _ (fun x hx => hall x (List.mem_cons_of_mem c hx))

theorem foldl_horner :
    ∀ (L : List Nat) (acc : Nat),
      L.reverse.foldl (fun a d => a * 10 + d) acc = acc * 10 ^ L.length + Nat.ofDigits 10 L := by
  intro L
  induction L with
  | nil => intro acc; simp [Nat.ofDigits]
  | cons d t ih =>
    intro acc
    rw [List.reverse_cons, List.foldl_append, ih]
    simp only [List.foldl_cons, List.foldl_nil, List.length_cons, Nat.ofDigits_cons]
    ring

theorem natRepr_digits_mem {n : Nat} : ∀ c ∈ natRepr n, isDigitCh c = true := by
  intro c hc
  rw [natRepr] at hc
  by_cases h0 : n = 0
  · rw [if_pos h0] at hc
    simp only [List.mem_singleton] at hc
    subst hc; decide
  · rw [if_neg h0, natReprAux_eq_digits n n le_rfl, List.mem_map] at hc
    obtain ⟨d, hd, rfl⟩ := hc
    rw [List.mem_reverse] at hd
    exact isDigitCh_digitChar (Nat.digits_lt_base (by norm_num) hd)

theorem foldl_digitChar :
    ∀ (L : List Nat) (acc : Nat), (∀ d ∈ L, d < 10) →
      L.foldl (fun a d => a * 10 + ((digitChar d).toNat - 48)) acc =
      L.foldl (fun a d => a * 10 + d) acc := by
  intro L
  induction L with
  | nil => intro acc _; rfl
  | cons d t ih =>
    intro acc h
    simp only [List.foldl_cons]
    rw [digitChar_toNat (h d (List.mem_cons_self d t)), Nat.add_sub_cancel_left]
    exact ih _ (fun x hx => h x (List.mem_cons_of_mem d hx))

theorem parseNatAll_natRepr (n : Nat) : parseNatAll (natRepr n) = some n := by
  by_cases h0 : n = 0
  · subst h0; decide
  · have hdig := natRepr_digits_mem (n := n)
    have hne : natRepr n ≠ [] := by
      rw [natRepr, if_neg h0, natReprAux_eq_digits n n le_rfl]
      simp [Nat.digits_ne_nil_iff_ne_zero, h0]
    obtain ⟨c, t, hct⟩ := List.exists_cons_of_ne_nil hne
    rw [hct] at hdig ⊢
    have h1 : parseNatAll (c :: t) = parseNatGo 0 (c :: t) := rfl
    rw [h1, parseNatGo_digits _ _ hdig, ← hct]
    rw [natRepr, if_neg h0, natReprAux_eq_digits n n le_rfl]
    rw [List.foldl_map]
    rw [foldl_digitChar _ _ (by
      intro d hd
      rw [List.mem_reverse] at hd
      exact Nat.digits_lt_base (by norm_num) hd)]
    rw [foldl_horner]
    simp [Nat.ofDigits_digits]

theorem parseI32_digits (cs : Str) (hne : cs ≠ []) (hdig : ∀ c ∈ cs, isDigitCh c = true) :
    parseI32 cs = (parseNatAll cs).bind fun n =>
      if (n : Int) < 2 ^ 31 then some ((n : Int)) else none := by
  obtain ⟨c, t, rfl⟩ := List.exists_cons_of_ne_nil hne
  have hc := hdig c (List.mem_cons_self c t)
  have hminus : c ≠ '-' := by
    intro h; subst h; exact absurd hc (by decide)
  have hplus : c ≠ '+' := by
    intro h; subst h; exact absurd hc (by decide)
  rw [parseI32, if_neg hminus, if_neg hplus]

theorem parseI32_i32ToString (n : Int) (hlo : -(2 ^ 31) ≤ n) (hhi : n < 2 ^ 31) :
    parseI32 (i32ToString n) = some n := by
  by_cases hneg : n < 0
  · rw [i32ToString, if_pos hneg, parseI32, if_pos rfl, parseNatAll_natRepr]
    rw [Option.some_bind]
    rw [if_pos (by omega : ((n.natAbs : Nat) : Int) ≤ 2 ^ 31)]
    congr 1
    omega
  · rw [i32ToString, if_neg hneg]
    rw [parseI32_digits _ ?hne natRepr_digits_mem]
    case hne =>
      rw [natRepr]
      by_cases h : n.toNat = 0
      · rw [if_pos h]; simp
      · rw [if_neg h, natReprAux_eq_digits _ _ le_rfl]
        simp [Nat.digits_ne_nil_iff_ne_zero, h]
    rw [parseNatAll_natRepr, Option.some_bind]
    rw [if_pos (by omega : ((n.toNat : Nat) : Int) < 2 ^ 31)]
    congr 1
    omega

/-! ## Roles, claims and the token codec

`UserRole` is the closed enumeration from `src/models/user.rs`.  The
token wire codec itself lives in the external `jsonwebtoken` crate, not
in this repository, so it is modelled from the spec (section 4.2 / 6):
a token is an opaque signed string carrying
`{sub, role, exp, iat}` plus a signature tied to the signing secret.
We realise the opaque string concretely as an injective, executable
serialization whose trailing component plays the role of the
signature; `decodeJwt` checks the signature first and then validates
expiry against the current time with the spec's exact boundary
(valid iff `now ≤ exp`, no leeway). -/

/-- The role enumeration (`src/models/user.rs`). -/
inductive UserRole where
  | Admin
  | Worker
  | User
deriving DecidableEq, Repr

/-- The `{:?}` debug rendering of a role, used in the role-gate error
message. -/
def roleDebug : UserRole → Str
  | .Admin => str "Admin"
  | .Worker => str "Worker"
  | .User => str "User"

/-- Single-character tag for a role inside the serialized token. -/
def roleChar : UserRole → Char
  | .Admin => 'A'
  | .Worker => 'W'
  | .User => 'U'

/-- Inverse of `roleChar`. -/
def charToRole (c : Char) : Option UserRole :=
  if c = 'A' then some .Admin
  else if c = 'W' then some .Worker
  else if c = 'U' then some .User
  else none

/-- The JWT claims struct (`src/auth/mod.rs`): subject (user id as a
string), role, expiry and issue time in seconds since the epoch. -/
structure Claims where
  sub : Str
  role : UserRole
  exp : Nat
  iat : Nat
deriving DecidableEq, Repr

/-- Modelled from the spec: the external `jsonwebtoken` `encode`
primitive.  The token string is opaque; we serialize
`exp . iat . role . |secret| . secret ++ sub` with '.' separators and a
length prefix for the secret, so that the mapping is injective and the
embedded secret acts as the signature. -/
def renderTok (c : Claims) (secret : Str) : Str :=
  natRepr c.exp ++ ('.' :: (natRepr c.iat ++
    ('.' :: roleChar c.role :: '.' :: (natRepr secret.length ++
      ('.' :: (secret ++ c.sub))))))

/-- Split a string at the first '.' separator. -/
def splitAtDot : Str → Option (Str × Str)
  | [] => none
  | c :: cs =>
    if c = '.' then some ([], cs)
    else (splitAtDot cs).map fun p => (c :: p.1, p.2)

/-- Modelled from the spec: structural parsing half of the external
JWT decode primitive.  Returns the claims and the signature (the
signing secret embedded at encode time); any string not produced by
`renderTok` is structurally invalid. -/
def parseJwt (s : Str) : Option (Claims × Str) :=
  match splitAtDot s with
  | none => none
  | some (e, r1) =>
    match parseNatAll e with
    | none => none
    | some expv =>
      match splitAtDot r1 with
      | none => none
      | some (i, r2) =>
        match parseNatAll i with
        | none => none
        | some iatv =>
          match r2 with
          | rc :: '.' :: r3 =>
            match charToRole rc with
            | none => none
            | some role =>
              match splitAtDot r3 with
              | none => none
              | some (ln, r4) =>
                match parseNatAll ln with
                | none => none
                | some klen =>
                  if klen ≤ r4.length then
                    some (⟨r4.drop klen, role, expv, iatv⟩, r4.take klen)
                  else none
          | _ => none

/-- Error kinds of the external JWT decode primitive
(`jsonwebtoken::errors::ErrorKind`), restricted to the ones the source
distinguishes. -/
inductive JwtError where
  | ExpiredSignature
  | InvalidToken
  | InvalidSignature
deriving DecidableEq, Repr

/-- Modelled from the spec: the external `jsonwebtoken` `decode`
primitive.  Checks the signature, then validates expiry against the
current time with the exact boundary of the spec (a token is valid iff
`now ≤ exp`; expired iff `exp < now`; no clock-skew leeway). -/
def decodeJwt (s : Str) (secret : Str) (now : Nat) : Except JwtError Claims :=
  match parseJwt s with
  | none => .error .InvalidToken
  | some (c, sig) =>
    if sig ≠ secret then .error .InvalidSignature
    else if c.exp < now then .error .ExpiredSignature
    else .ok c

theorem splitAtDot_append (xs rest : Str) (h : ∀ c ∈ xs, c ≠ '.') :
    splitAtDot (xs ++ '.' :: rest) = some (xs, rest) := by
  induction xs with
  | nil => simp [splitAtDot]
  | cons c t ih =>
    rw [List.cons_append, splitAtDot, if_neg (h c (List.mem_cons_self c t))]
    rw [ih (fun x hx => h x (List.mem_cons_of_mem c hx))]
    rfl

theorem natRepr_no_dot (n : Nat) : ∀ c ∈ natRepr n, c ≠ '.' := by
  intro c hc heq
  have := natRepr_digits_mem c hc
  subst heq
  exact absurd this (by decide)

theorem charToRole_roleChar (r : UserRole) : charToRole (roleChar r) = some r := by
  cases r <;> decide

theorem splitAtDot_natRepr (n : Nat) (rest : Str) :
    splitAtDot (natRepr n ++ '.' :: rest) = some (natRepr n, rest) :=
  splitAtDot_append _ _ (natRepr_no_dot n)

theorem parseJwt_renderTok (c : Claims) (secret : Str) :
    parseJwt (renderTok c secret) = some (c, secret) := by
  obtain ⟨sub, role, expv, iatv⟩ := c
  cases role <;>
    simp [renderTok, parseJwt, splitAtDot_natRepr, parseNatAll_natRepr, charToRole, roleChar,
      List.take_left, List.drop_left]

/-! ## Error taxonomy (`src/error.rs`) and storage errors (`src/db/mod.rs`) -/

/-- A coarse model of `sqlx::Error`: the variants the source's
`map_db_error` distinguishes, plus representative other variants for
the catch-all arm. -/
inductive SqlxError where
  | Database (code : Option Str)
  | RowNotFound
  | PoolTimedOut
  | PoolClosed
  | Io (msg : Str)
  | Decode (msg : Str)
  | ColumnNotFound (name : Str)
  | Configuration (msg : Str)
deriving DecidableEq, Repr

/-- The application error taxonomy (`src/error.rs`). -/
inductive AppError where
  | AuthError (msg : Str)
  | AuthzError (msg : Str)
  | ValidationError (msg : Str)
  | NotFoundError (msg : Str)
  | ConflictError (msg : Str)
  | DatabaseError (err : SqlxError)
  | InternalError (msg : Str)
deriving DecidableEq, Repr

/-- `AppError::status_code` (`src/error.rs`), as the numeric HTTP
status. -/
def statusCode : AppError → Nat
  | .AuthError _ => 401
  | .AuthzError _ => 403
  | .ValidationError _ => 400
  | .NotFoundError _ => 404
  | .ConflictError _ => 409
  | .DatabaseError _ => 500
  | .InternalError _ => 500

/-- `map_db_error` (`src/db/mod.rs`): translate a storage error into
the application taxonomy.  `db_err.code().unwrap_or_default()` is the
`getD (str "")`. -/
def map_db_error (err : SqlxError) : AppError :=
  match err with
  | .Database code =>
    let c := code.getD (str "")
    if c = str "23000" ∨ c = str "1062" then
      .ConflictError (str "Duplicate entry violation")
    else if c = str "23503" ∨ c = str "1452" then
      .ValidationError (str "Foreign key constraint violation")
    else .DatabaseError (.Database code)
  | .RowNotFound => .NotFoundError (str "Resource not found")
  | e => .DatabaseError e

/-! ## Process configuration and outcomes -/

/-- The environment variables the token codec reads
(`JWT_SECRET`, `JWT_EXPIRES_IN`); `none` means the variable is unset. -/
structure Env where
  jwtSecret : Option Str
  jwtExpiresIn : Option Str
deriving DecidableEq, Repr

/-- The outcome of a fallible request-path computation: a value, an
application error, or a process panic (the source's `expect` /
out-of-bounds slice paths). -/
inductive Outcome (α : Type) where
  | ok (a : α)
  | err (e : AppError)
  | panic (msg : Str)
deriving DecidableEq, Repr

/-- Does an outcome carry `AppError::InternalError`? -/
def Outcome.isInternalErr {α : Type} : Outcome α → Bool
  | .err (.InternalError _) => true
  | _ => false

/-- Does an outcome carry a token (the `Ok` constructor)? -/
def Outcome.isOk {α : Type} : Outcome α → Bool
  | .ok _ => true
  | _ => false

/-! ## The token codec functions (`src/auth/mod.rs`) -/

/-- Modelled from the external chrono crate (absent from src/): the
magnitude bound of a `Duration`/`TimeDelta`, in whole seconds — the
crate caps durations at `i64::MAX` milliseconds, i.e.
`(2^63 - 1) / 1000` seconds. -/
def chronoDurationMaxSecs : Int := 9223372036854775

/-- Modelled from the external chrono crate: the
`Duration::seconds/minutes/hours/days` constructors panic
("out of bounds") when the requested span exceeds the bound;
`none` models that panic, at second granularity. -/
def chronoDuration (secs : Int) : Option Int :=
  if -chronoDurationMaxSecs ≤ secs ∧ secs ≤ chronoDurationMaxSecs then some secs
  else none

/-- Modelled from the external chrono crate: the largest UTC timestamp
a `DateTime` can represent (+262142-12-31T23:59:59); `DateTime +
Duration` panics past it. -/
def dateTimeMaxTs : Int := 8210266876799

/-- Modelled from the external chrono crate: the smallest UTC
timestamp a `DateTime` can represent (-262143-01-01T00:00:00). -/
def dateTimeMinTs : Int := -8334601315200

/-- `parse_duration` (`src/auth/mod.rs` lines 62-73).  The source
calls `duration_str.split_at(duration_str.len() - 1)` and then one of
the chrono `Duration` constructors; `.error` models the panic paths:
the empty string (the byte index underflows / is out of bounds), a
multi-byte final character (the byte index is not a char boundary),
and an out-of-bounds duration (the chrono constructor panics).  The
`.ok` payload is the source's `Option<Duration>`: `none` when the
amount does not parse as an `i64` or the unit suffix is unknown,
otherwise the duration in seconds (`seconds`, `minutes`, `hours`,
`days` scale by 1, 60, 3600, 86400). -/
def parse_duration (cs : Str) : Except Str (Option Int) :=
  if cs.length = 0 then .error (str "byte index out of bounds in split_at")
  else
    let amount_str := cs.take (cs.length - 1)
    let unit := cs.drop (cs.length - 1)
    if unit.any (fun c => 128 ≤ c.toNat) then
      .error (str "byte index is not a char boundary in split_at")
    else
      match parseI64 amount_str with
      | none => .ok none
      | some amount =>
        if unit = ['s'] then
          match chronoDuration amount with
          | some d => .ok (some d)
          | none => .error (str "Duration constructor out of bounds")
        else if unit = ['m'] then
          match chronoDuration (amount * 60) with
          | some d => .ok (some d)
          | none => .error (str "Duration constructor out of bounds")
        else if unit = ['h'] then
          match chronoDuration (amount * 3600) with
          | some d => .ok (some d)
          | none => .error (str "Duration constructor out of bounds")
        else if unit = ['d'] then
          match chronoDuration (amount * 86400) with
          | some d => .ok (some d)
          | none => .error (str "Duration constructor out of bounds")
        else .ok none

/-- `create_token` (`src/auth/mod.rs` lines 16-39).  `now` is
`Utc::now().timestamp()`.  Reading an unset `JWT_SECRET` panics
(`expect`); an unset `JWT_EXPIRES_IN` defaults to `"30d"`; an
unparseable window defaults to 30 days; `parse_duration`'s panic
paths (empty string, multi-byte final character, out-of-bounds
duration) propagate, and `now + expires_in` — the source's
`DateTime + Duration` — panics when the expiry leaves the
representable `DateTime` range (modelled at second granularity).
The external `encode` primitive (`renderTok`) is total on these
claims, so the source's encode error arm is unreachable. -/
def create_token (env : Env) (user_id : Int) (role : UserRole) (now : Int) : Outcome Str :=
  match env.jwtSecret with
  | none => .panic (str "JWT_SECRET must be set")
  | some secret =>
    let expiration := env.jwtExpiresIn.getD (str "30d")
    match parse_duration expiration with
    | .error m => .panic m
    | .ok parsed =>
      let expires_in := parsed.getD ((30 : Int) * 86400)
      let expires_at := now + expires_in
      if expires_at < dateTimeMinTs ∨ dateTimeMaxTs < expires_at then
        .panic (str "DateTime plus Duration overflowed")
      else
        let claims : Claims :=
          { sub := i32ToString user_id
            role := role
            exp := usizeCast expires_at
            iat := usizeCast now }
        .ok (renderTok claims secret)

/-- `verify_token` (`src/auth/mod.rs` lines 41-59).  `now` is the
verification-time clock (seconds since the epoch).  Maps the decode
error kinds onto `AppError::AuthError` exactly as the source's `match
e.kind()` does. -/
def verify_token (env : Env) (token : Str) (now : Nat) : Outcome Claims :=
  match env.jwtSecret with
  | none => .panic (str "JWT_SECRET must be set")
  | some secret =>
    match decodeJwt token secret now with
    | .ok claims => .ok claims
    | .error .ExpiredSignature => .err (.AuthError (str "Token expired"))
    | .error .InvalidToken => .err (.AuthError (str "Invalid token"))
    | .error .InvalidSignature =>
      .err (.AuthError (str "Token validation failed: InvalidSignature"))

/-- The expiry recorded inside a token string (0 for a structurally
invalid string); `expires_at` of the spec's wire format. -/
def expOfToken (s : Str) : Nat :=
  match parseJwt s with
  | some (c, _) => c.exp
  | none => 0

/-! ## Identity extraction and the role gate (`src/middleware/auth.rs`) -/

/-- A raw `Authorization` header value: either bytes that are not a
valid string (`to_str()` fails) or a header string. -/
inductive HeaderValue where
  | invalidBytes
  | text (s : Str)
deriving DecidableEq, Repr

/-- The authenticated identity (`AuthUser`). -/
structure AuthUser where
  user_id : Int
  role : UserRole
deriving DecidableEq, Repr

/-- `AuthUser::from_request_parts` (`src/middleware/auth.rs` lines
30-59): take the `Authorization` header (absent, invalid, or text);
require the literal prefix `"Bearer "`; pass the remainder (byte/char
index 7 onward) to `verify_token`; parse the verified claims' `sub` as
an `i32`. -/
def from_request_parts (env : Env) (now : Nat) (header : Option HeaderValue) :
    Outcome AuthUser :=
  let token? : Option Str := header.bind fun hv =>
    match hv with
    | .invalidBytes => none
    | .text s =>
      if (str "Bearer ").isPrefixOf s then some (s.drop 7) else none
  match token? with
  | none => .err (.AuthError (str "Missing or invalid Authorization header"))
  | some token =>
    match verify_token env token now with
    | .panic m => .panic m
    | .err e => .err e
    | .ok claims =>
      match parseI32 claims.sub with
      | none => .err (.AuthError (str "Invalid user ID in token"))
      | some user_id => .ok ⟨user_id, claims.role⟩

/-- `require_auth` (`src/middleware/auth.rs` lines 63-91): run the
extractor; on success, check membership of the role in the allowed
set, rejecting with `AuthzError` naming the denied role; on success
the identity is stored in the request extensions and the request is
forwarded — modelled as the `ok` acknowledgement carrying that
identity. -/
def require_auth (env : Env) (now : Nat) (allowed_roles : List UserRole)
    (header : Option HeaderValue) : Outcome AuthUser :=
  match from_request_parts env now header with
  | .panic m => .panic m
  | .err e => .err e
  | .ok auth_user =>
    if allowed_roles.contains auth_user.role then .ok auth_user
    else .err (.AuthzError (str "User role '" ++ roleDebug auth_user.role ++
      str "' is not authorized to access this route"))

/-- `admin_only` (`src/middleware/auth.rs` lines 94-102):
`require_auth` with the allowed set `[Admin]`. -/
def admin_only (env : Env) (now : Nat) (header : Option HeaderValue) :
    Outcome AuthUser :=
  require_auth env now [UserRole.Admin] header

/-! ## The user model (`src/models/user.rs`) -/

/-- `UpdateUserDto`: the sparse optional-field set of a partial
update.  `date_of_birth` (a `DateTime<Utc>`) is modelled as an epoch
timestamp. -/
structure UpdateUserDto where
  email : Option Str
  password : Option Str
  first_name : Option Str
  last_name : Option Str
  passport_number : Option Str
  nationality : Option Str
  date_of_birth : Option Int
  contact_number : Option Str
  gender : Option Str
deriving DecidableEq, Repr

/-- A value positionally bound into the SQL command. -/
inductive Value where
  | s (v : Str)
  | date (v : Int)
  | id (v : Int)
deriving DecidableEq, Repr

/-- Is this bound value the WHERE identifier? -/
def Value.isId : Value → Bool
  | .id _ => true
  | _ => false

/-- The accumulated update command: the ordered `SET` clause list and
the positional bind list (including the trailing identifier). -/
structure UpdateQuery where
  setClauses : List Str
  binds : List Value
deriving DecidableEq, Repr

/-- The clause/bind construction of `User::update` (`src/models/user.rs`
lines 250-306), faithful to the source's two separate passes: one pass
pushes `"<column> = ?"` clauses for each present field, a second pass
binds the present values in the same fixed enumeration order, and the
identifier is bound last.  `hash` is the external bcrypt primitive
(`hash(pass, DEFAULT_COST)`), a parameter of the model; the source
hashes the password before the passes, so the password clause/bind is
keyed on the hashed value's presence.  Returns `none` when zero
clauses were pushed (the source's early `return Ok(false)` before any
command is built). -/
def buildUpdate (hash : Str → Str) (id : Int) (d : UpdateUserDto) :
    Option UpdateQuery :=
  let hashed_password := d.password.map hash
  let set_clauses : List Str :=
    (if d.email.isSome then [str "email = ?"] else []) ++
    (if hashed_password.isSome then [str "password = ?"] else []) ++
    (if d.first_name.isSome then [str "first_name = ?"] else []) ++
    (if d.last_name.isSome then [str "last_name = ?"] else []) ++
    (if d.passport_number.isSome then [str "passport_number = ?"] else []) ++
    (if d.nationality.isSome then [str "nationality = ?"] else []) ++
    (if d.date_of_birth.isSome then [str "date_of_birth = ?"] else []) ++
    (if d.contact_number.isSome then [str "contact_number = ?"] else []) ++
    (if d.gender.isSome then [str "gender = ?"] else [])
  if set_clauses.isEmpty then none
  else
    let binds : List Value :=
      (match d.email with | some v => [Value.s v] | none => []) ++
      (match hashed_password with | some v => [Value.s v] | none => []) ++
      (match d.first_name with | some v => [Value.s v] | none => []) ++
      (match d.last_name with | some v => [Value.s v] | none => []) ++
      (match d.passport_number with | some v => [Value.s v] | none => []) ++
      (match d.nationality with | some v => [Value.s v] | none => []) ++
      (match d.date_of_birth with | some v => [Value.date v] | none => []) ++
      (match d.contact_number with | some v => [Value.s v] | none => []) ++
      (match d.gender with | some v => [Value.s v] | none => [])
    some { setClauses := set_clauses, binds := binds ++ [Value.id id] }

/-- `User::update` (`src/models/user.rs` lines 238-316), with the
persistence collaborator abstracted: `begin_` is `pool.begin()`,
`exec` runs the built command and yields `rows_affected`, `commit` is
`tx.commit()`.  Returns the handler-visible result paired with the
list of update commands actually issued. -/
def User.update (begin_ : Except AppError Unit)
    (exec : UpdateQuery → Except AppError Nat)
    (commit : Except AppError Unit)
    (hash : Str → Str) (id : Int) (d : UpdateUserDto) :
    Except AppError Bool × List UpdateQuery :=
  match begin_ with
  | .error e => (.error e, [])
  | .ok _ =>
    match buildUpdate hash id d with
    | none => (.ok false, [])
    | some q =>
      match exec q with
      | .error e => (.error e, [q])
      | .ok n =>
        match commit with
        | .error e => (.error e, [q])
        | .ok _ => (.ok (decide (0 < n)), [q])

/-- Fold a list of issued commands over an arbitrary persistence-state
transformer: the effect of the issued commands on stored state. -/
def applyCommands {Db : Type} (step : Db → UpdateQuery → Db) (db : Db)
    (cmds : List UpdateQuery) : Db :=
  cmds.foldl step db

/-- The update dto with zero optional fields present. -/
def emptyUpdateDto : UpdateUserDto :=
  ⟨none, none, none, none, none, none, none, none, none⟩

/-- `UserWithPassword` (`src/models/user.rs`): the credential-bearing
row returned by `find_by_email` / `find_by_phone`. -/
structure UserWithPassword where
  user_id : Int
  email : Option Str
  password : Option Str
  role : UserRole
  first_name : Str
  last_name : Str
  passport_number : Option Str
  nationality : Option Str
  date_of_birth : Option Int
  contact_number : Option Str
  gender : Option Str
  created_at : Int
  updated_at : Int
deriving DecidableEq, Repr

/-- `User::verify_password` (`src/models/user.rs` lines 339-346).
`bcryptVerify` is the external `bcrypt::verify` primitive, a parameter
of the model; its error message feeds the `InternalError` arm.  A
`NULL` stored password short-circuits to `AuthError` before bcrypt
runs. -/
def verify_password (bcryptVerify : Str → Str → Except Str Bool)
    (user : UserWithPassword) (password : Str) : Except AppError Bool :=
  match user.password with
  | none => .error (.AuthError (str "No password set for this user"))
  | some stored =>
    match bcryptVerify password stored with
    | .ok b => .ok b
    | .error e =>
      .error (.InternalError (str "Password verification failed: " ++ e))

/-- `LoginDto` (`src/models/user.rs`). -/
structure LoginDto where
  email : Str
  password : Str
deriving DecidableEq, Repr

/-- `PhoneLoginDto` (`src/models/user.rs`). -/
structure PhoneLoginDto where
  phone : Str
  password : Str
deriving DecidableEq, Repr

/-- `login` (`src/handlers/auth.rs` lines 51-92): validate the
non-empty fields, look the user up by email (`findByEmail` abstracts
`User::find_by_email` on the persistence collaborator), verify the
password, and issue a token.  The success value is the token and the
user whose password field is not serialized outward. -/
def login (bcryptVerify : Str → Str → Except Str Bool)
    (findByEmail : Str → Except AppError UserWithPassword)
    (env : Env) (now : Int) (login_data : LoginDto) :
    Outcome (Str × UserWithPassword) :=
  if login_data.email.isEmpty ∨ login_data.password.isEmpty then
    .err (.ValidationError (str "Please provide email and password"))
  else
    match findByEmail login_data.email with
    | .error e => .err e
    | .ok user =>
      match verify_password bcryptVerify user login_data.password with
      | .error e => .err e
      | .ok false => .err (.AuthError (str "Invalid credentials"))
      | .ok true =>
        match create_token env user.user_id user.role now with
        | .panic m => .panic m
        | .err e => .err e
        | .ok token => .ok (token, user)

/-- `login_phone` (`src/handlers/auth.rs` lines 95-136): the same
flow keyed on `contact_number`. -/
def login_phone (bcryptVerify : Str → Str → Except Str Bool)
    (findByPhone : Str → Except AppError UserWithPassword)
    (env : Env) (now : Int) (login_data : PhoneLoginDto) :
    Outcome (Str × UserWithPassword) :=
  if login_data.phone.isEmpty ∨ login_data.password.isEmpty then
    .err (.ValidationError (str "Please provide phone and password"))
  else
    match findByPhone login_data.phone with
    | .error e => .err e
    | .ok user =>
      match verify_password bcryptVerify user login_data.password with
      | .error e => .err e
      | .ok false => .err (.AuthError (str "Invalid credentials"))
      | .ok true =>
        match create_token env user.user_id user.role now with
        | .panic m => .panic m
        | .err e => .err e
        | .ok token => .ok (token, user)

/-! ## Claim-level definitions -/

/-- The spec's single fixed field enumeration for the update builder:
one pass producing, for each present field in order (email, password,
first_name, last_name, passport_number, nationality, date_of_birth,
contact_number, gender), the `"<column> = ?"` clause paired with the
value bound for it (the password bound as its hash). -/
def presentPairs (hash : Str → Str) (d : UpdateUserDto) : List (Str × Value) :=
  (match d.email with | some v => [(str "email = ?", Value.s v)] | none => []) ++
  (match d.password with | some v => [(str "password = ?", Value.s (hash v))] | none => []) ++
  (match d.first_name with | some v => [(str "first_name = ?", Value.s v)] | none => []) ++
  (match d.last_name with | some v => [(str "last_name = ?", Value.s v)] | none => []) ++
  (match d.passport_number with | some v => [(str "passport_number = ?", Value.s v)] | none => []) ++
  (match d.nationality with | some v => [(str "nationality = ?", Value.s v)] | none => []) ++
  (match d.date_of_birth with | some v => [(str "date_of_birth = ?", Value.date v)] | none => []) ++
  (match d.contact_number with | some v => [(str "contact_number = ?", Value.s v)] | none => []) ++
  (match d.gender with | some v => [(str "gender = ?", Value.s v)] | none => [])

/-! ## C3: clause/bind lockstep and WHERE-last -/

set_option maxHeartbeats 4000000 in
/-- C3: for every `UpdateUserDto`, the command built by `User::update`
lists its `SET` clauses and its bound values in the one fixed field
enumeration order of `presentPairs`, so the i-th clause's column
receives the i-th bound value; the WHERE identifier is bound exactly
once, last, after every present-field value. -/
theorem update_clause_bind_lockstep (hash : Str → Str) (id : Int)
    (d : UpdateUserDto) (q : UpdateQuery)
    (h : buildUpdate hash id d = some q) :
    q.setClauses = (presentPairs hash d).map Prod.fst ∧
    q.binds = (presentPairs hash d).map Prod.snd ++ [Value.id id] ∧
    q.binds.filter Value.isId = [Value.id id] := by
  obtain ⟨e, p, f, l, pn, na, dob, cn, g⟩ := d
  cases e <;> cases p <;> cases f <;> cases l <;> cases pn <;> cases na <;>
    cases dob <;> cases cn <;> cases g <;>
    simp [buildUpdate] at h <;> (obtain rfl := h) <;>
    simp [presentPairs, Value.isId]

/-- Witness for C3: with only `first_name` present the command has
exactly the clause `first_name = ?` bound to that value, followed by
the identifier. -/
theorem update_clause_bind_lockstep_witness :
    (buildUpdate (fun s => s) 5
        ⟨none, none, some (str "A"), none, none, none, none, none, none⟩ =
      some ⟨[str "first_name = ?"], [Value.s (str "A"), Value.id 5]⟩) ∧
    ([str "first_name = ?"] = (presentPairs (fun s => s)
        ⟨none, none, some (str "A"), none, none, none, none, none, none⟩).map Prod.fst ∧
      [Value.s (str "A"), Value.id 5] = (presentPairs (fun s => s)
        ⟨none, none, some (str "A"), none, none, none, none, none, none⟩).map Prod.snd ++
        [Value.id 5] ∧
      [Value.s (str "A"), Value.id 5].filter Value.isId = [Value.id 5]) := by
  refine ⟨by decide, ?_⟩
  have h := update_clause_bind_lockstep (fun s => s) 5
    ⟨none, none, some (str "A"), none, none, none, none, none, none⟩
    ⟨[str "first_name = ?"], [Value.s (str "A"), Value.id 5]⟩ (by decide)
  exact h

/-! ## C8: empty update is a no-op -/

/-- C8: an update with zero optional fields present issues no
persistence command, returns `Ok(false)` ("no rows affected"), and —
under any persistence-state semantics whatsoever — leaves every stored
record unchanged, independently of the executor. -/
theorem update_empty_noop (exec : UpdateQuery → Except AppError Nat)
    (hash : Str → Str) (id : Int) :
    User.update (.ok ()) exec (.ok ()) hash id emptyUpdateDto = (.ok false, []) ∧
    ∀ (Db : Type) (step : Db → UpdateQuery → Db) (db : Db),
      applyCommands step db
        (User.update (.ok ()) exec (.ok ()) hash id emptyUpdateDto).2 = db := by
  exact ⟨rfl, fun Db step db => rfl⟩

/-! ## Helper lemmas shared by the token claims -/

theorem create_token_ok_shape (env : Env) (k : Str) (uid : Int) (role : UserRole)
    (now : Int) (tok : Str)
    (hk : env.jwtSecret = some k)
    (hcreate : create_token env uid role now = .ok tok) :
    ∃ w : Int,
      tok = renderTok ⟨i32ToString uid, role, usizeCast (now + w), usizeCast now⟩ k := by
  simp only [create_token, hk] at hcreate
  cases hpd : parse_duration (env.jwtExpiresIn.getD (str "30d")) with
  | error m => rw [hpd] at hcreate; simp at hcreate
  | ok parsed =>
    rw [hpd] at hcreate
    by_cases hr : now + parsed.getD ((30 : Int) * 86400) < dateTimeMinTs ∨
        dateTimeMaxTs < now + parsed.getD ((30 : Int) * 86400)
    · simp only [if_pos hr] at hcreate
      simp at hcreate
    · simp only [if_neg hr, Outcome.ok.injEq] at hcreate
      exact ⟨parsed.getD ((30 : Int) * 86400), hcreate.symm⟩

theorem verify_renderTok (env : Env) (k : Str) (c : Claims) (now : Nat)
    (hk : env.jwtSecret = some k) :
    verify_token env (renderTok c k) now =
      if c.exp < now then .err (.AuthError (str "Token expired")) else .ok c := by
  by_cases h : c.exp < now <;>
    simp [verify_token, hk, decodeJwt, parseJwt_renderTok, h]

theorem expOfToken_renderTok (c : Claims) (k : Str) :
    expOfToken (renderTok c k) = c.exp := by
  rw [expOfToken, parseJwt_renderTok]

/-! ## C1: token round-trip -/

/-- C1: with the signing secret present, any token issued by
`create_token` for an `i32` subject and a role verifies successfully
before its expiry, and the verified claims carry the same subject
(`sub` parses back to the `i32`) and the same role. -/
theorem token_roundtrip (env : Env) (k : Str) (uid : Int) (role : UserRole)
    (now : Int) (now' : Nat) (tok : Str)
    (hk : env.jwtSecret = some k)
    (hlo : -(2 ^ 31) ≤ uid) (hhi : uid < 2 ^ 31)
    (hcreate : create_token env uid role now = .ok tok)
    (hfresh : now' ≤ expOfToken tok) :
    ∃ claims, verify_token env tok now' = .ok claims ∧
      parseI32 claims.sub = some uid ∧ claims.role = role := by
  obtain ⟨w, rfl⟩ := create_token_ok_shape env k uid role now tok hk hcreate
  rw [expOfToken_renderTok] at hfresh
  refine ⟨⟨i32ToString uid, role, usizeCast (now + w), usizeCast now⟩, ?_, ?_, rfl⟩
  · rw [verify_renderTok env k _ now' hk]
    exact if_neg (Nat.not_lt.mpr hfresh)
  · exact parseI32_i32ToString uid hlo hhi

/-- Witness for C1 at a concrete environment, subject and role. -/
theorem token_roundtrip_witness :
    ∃ tok, create_token ⟨some (str "K"), none⟩ 42 UserRole.Worker 1000 = .ok tok ∧
      ∃ claims, verify_token ⟨some (str "K"), none⟩ tok 1000 = .ok claims ∧
        parseI32 claims.sub = some 42 ∧ claims.role = UserRole.Worker := by
  refine ⟨_, rfl, ?_⟩
  exact token_roundtrip ⟨some (str "K"), none⟩ (str "K") 42 UserRole.Worker 1000 1000 _
    rfl (by decide) (by decide) rfl (by decide)

/-! ## C2: exact expiry boundary -/

/-- C2: for every issued token (same signing secret at both ends),
verification succeeds iff `now <= expires_at`; a token whose
`expires_at` equals the clock verifies, and any later clock — in
particular one second past expiry — fails with
`AuthError("Token expired")`.  Modelled from the spec: the expiry
comparison itself lives in the external `jsonwebtoken` crate, whose
spec-mandated behaviour is the exact boundary with no leeway. -/
theorem token_expiry_boundary (env : Env) (k : Str) (uid : Int) (role : UserRole)
    (now : Int) (tok : Str)
    (hk : env.jwtSecret = some k)
    (hcreate : create_token env uid role now = .ok tok) :
    (∀ now' : Nat, (∃ c, verify_token env tok now' = .ok c) ↔ now' ≤ expOfToken tok) ∧
    (verify_token env tok (expOfToken tok)).isOk = true ∧
    (∀ now' : Nat, expOfToken tok < now' →
      verify_token env tok now' = .err (.AuthError (str "Token expired"))) := by
  obtain ⟨w, rfl⟩ := create_token_ok_shape env k uid role now tok hk hcreate
  rw [expOfToken_renderTok]
  refine ⟨fun now' => ?_, ?_, fun now' h => ?_⟩
  · rw [verify_renderTok env k _ now' hk]
    constructor
    · rintro ⟨c, hc⟩
      by_contra hlt
      rw [if_pos (Nat.lt_of_not_le hlt)] at hc
      exact absurd hc (by simp)
    · intro hle
      exact ⟨_, by rw [if_neg (Nat.not_lt.mpr hle)]⟩
  · rw [verify_renderTok env k _ _ hk, if_neg (lt_irrefl _)]
    rfl
  · rw [verify_renderTok env k _ now' hk, if_pos h]

/-- Witness for C2: a concrete five-second token verifies at its exact
expiry instant and fails one second later with the expiry error. -/
theorem token_expiry_boundary_witness :
    ∃ tok, create_token ⟨some (str "K"), some (str "5s")⟩ 7 UserRole.Admin 100 = .ok tok ∧
      (verify_token ⟨some (str "K"), some (str "5s")⟩ tok (expOfToken tok)).isOk = true ∧
      verify_token ⟨some (str "K"), some (str "5s")⟩ tok (expOfToken tok + 1) =
        .err (.AuthError (str "Token expired")) := by
  refine ⟨_, rfl, ?_, ?_⟩
  · exact (token_expiry_boundary ⟨some (str "K"), some (str "5s")⟩ (str "K") 7
      UserRole.Admin 100 _ rfl rfl).2.1
  · exact (token_expiry_boundary ⟨some (str "K"), some (str "5s")⟩ (str "K") 7
      UserRole.Admin 100 _ rfl rfl).2.2 _ (Nat.lt_succ_self _)

/-! ## C4: identity extraction -/

theorem bearer_isPrefixOf (t : Str) :
    (str "Bearer ").isPrefixOf (str "Bearer " ++ t) = true := by
  rw [List.isPrefixOf_iff_prefix]
  exact List.prefix_append _ _

theorem bearer_drop (t : Str) : (str "Bearer " ++ t).drop 7 = t := by
  have h : (str "Bearer ").length = 7 := rfl
  rw [← h, List.drop_left]

/-- C4: the identity-extraction contract.  An absent header, invalid
header bytes, or a header without the literal case-sensitive prefix
`"Bearer "` fail with the missing-header `AuthError`; otherwise the
remainder after the 7-character prefix goes to `verify_token`, whose
error propagates; a verified `sub` that does not parse as an `i32`
fails with the invalid-user-id `AuthError`; and on success the
identity `(user_id, role)` is produced. -/
theorem identity_extraction (env : Env) (now : Nat) (h : Option HeaderValue) :
    ((h = none ∨ h = some .invalidBytes ∨
        ∀ s, h = some (.text s) → (str "Bearer ").isPrefixOf s = false) →
      from_request_parts env now h =
        .err (.AuthError (str "Missing or invalid Authorization header"))) ∧
    (∀ t e, h = some (.text (str "Bearer " ++ t)) →
      verify_token env t now = .err e →
      from_request_parts env now h = .err e) ∧
    (∀ t claims, h = some (.text (str "Bearer " ++ t)) →
      verify_token env t now = .ok claims →
      (parseI32 claims.sub = none →
        from_request_parts env now h =
          .err (.AuthError (str "Invalid user ID in token"))) ∧
      (∀ uid, parseI32 claims.sub = some uid →
        from_request_parts env now h = .ok ⟨uid, claims.role⟩)) := by
  refine ⟨?_, ?_, ?_⟩
  · rintro (rfl | rfl | hpre)
    · rfl
    · rfl
    · cases h with
      | none => rfl
      | some hv =>
        cases hv with
        | invalidBytes => rfl
        | text s =>
          have hp : ¬ (str "Bearer ") <+: s := by
            rw [← List.isPrefixOf_iff_prefix]
            simp [hpre s rfl]
          simp [from_request_parts, hp]
  · rintro t e rfl hv
    simp [from_request_parts, bearer_isPrefixOf, bearer_drop, hv]
  · rintro t claims rfl hv
    constructor
    · intro hp
      simp [from_request_parts, bearer_isPrefixOf, bearer_drop, hv, hp]
    · intro uid hp
      simp [from_request_parts, bearer_isPrefixOf, bearer_drop, hv, hp]

/-- Witness for C4: an absent header is rejected with the
missing-header error. -/
theorem identity_extraction_witness :
    from_request_parts ⟨some (str "K"), none⟩ 0 none =
      .err (.AuthError (str "Missing or invalid Authorization header")) :=
  (identity_extraction ⟨some (str "K"), none⟩ 0 none).1 (Or.inl rfl)

/-! ## C5: the role gate -/

/-- C5: `require_auth` runs the extractor first and propagates its
error unchanged; on success it rejects with `AuthzError` (a kind
distinct from `AuthError`) exactly when the role is outside the
allowed set and otherwise forwards the identity; the admin-only gate
denies `Worker` and approves `Admin`. -/
theorem role_gate (env : Env) (now : Nat) (allowed : List UserRole)
    (h : Option HeaderValue) :
    (∀ e, from_request_parts env now h = .err e →
      require_auth env now allowed h = .err e) ∧
    (∀ u, from_request_parts env now h = .ok u →
      (allowed.contains u.role = false →
        require_auth env now allowed h =
          .err (.AuthzError (str "User role '" ++ roleDebug u.role ++
            str "' is not authorized to access this route"))) ∧
      (allowed.contains u.role = true → require_auth env now allowed h = .ok u)) ∧
    (∀ m m', AppError.AuthzError m ≠ AppError.AuthError m') ∧
    (∀ u, from_request_parts env now h = .ok u →
      (u.role = .Worker → admin_only env now h =
        .err (.AuthzError (str "User role '" ++ roleDebug UserRole.Worker ++
          str "' is not authorized to access this route"))) ∧
      (u.role = .Admin → admin_only env now h = .ok u)) := by
  refine ⟨?_, ?_, ?_, ?_⟩
  · intro e he
    simp [require_auth, he]
  · intro u hu
    constructor
    · intro hc
      have hc' : u.role ∉ allowed := by simpa using hc
      simp [require_auth, hu, hc']
    · intro hc
      have hc' : u.role ∈ allowed := by simpa using hc
      simp [require_auth, hu, hc']
  · intro m m' hcontra
    exact AppError.noConfusion hcontra
  · intro u hu
    constructor
    · intro hrole
      simp [admin_only, require_auth, hu, hrole]
    · intro hrole
      simp [admin_only, require_auth, hu, hrole]

/-- Witness for C5: a concrete admin token passes the admin-only gate
and a concrete worker token is denied by it with `AuthzError`. -/
theorem role_gate_witness :
    admin_only ⟨some (str "K"), none⟩ 0
        (some (.text (str "Bearer " ++
          renderTok ⟨str "42", UserRole.Admin, 5, 0⟩ (str "K")))) =
      .ok ⟨42, UserRole.Admin⟩ ∧
    admin_only ⟨some (str "K"), none⟩ 0
        (some (.text (str "Bearer " ++
          renderTok ⟨str "43", UserRole.Worker, 5, 0⟩ (str "K")))) =
      .err (.AuthzError (str "User role '" ++ roleDebug UserRole.Worker ++
        str "' is not authorized to access this route")) := by
  constructor
  · exact ((role_gate ⟨some (str "K"), none⟩ 0 [UserRole.Admin] _).2.2.2
      ⟨42, UserRole.Admin⟩ (by decide)).2 rfl
  · exact ((role_gate ⟨some (str "K"), none⟩ 0 [UserRole.Admin] _).2.2.2
      ⟨43, UserRole.Worker⟩ (by decide)).1 rfl

/-! ## C6: absent signing secret -/

/-- Counterexample for C6 as stated: with `JWT_SECRET` unset,
`create_token` does not return `InternalError` — it panics
(the source's `expect("JWT_SECRET must be set")`). -/
theorem absent_secret_counterexample :
    create_token ⟨none, none⟩ 1 UserRole.User 0 =
      .panic (str "JWT_SECRET must be set") ∧
    (create_token ⟨none, none⟩ 1 UserRole.User 0).isInternalErr = false := by
  decide

/-- C6 (amended): when `JWT_SECRET` is absent, `create_token` and
`verify_token` panic with "JWT_SECRET must be set" — the process fails
fast — and in particular never produce `InternalError` or any other
per-request error value. -/
theorem absent_secret_panics (env : Env) (uid : Int) (role : UserRole)
    (now : Int) (tok : Str) (now' : Nat)
    (hs : env.jwtSecret = none) :
    create_token env uid role now = .panic (str "JWT_SECRET must be set") ∧
    verify_token env tok now' = .panic (str "JWT_SECRET must be set") ∧
    (create_token env uid role now).isInternalErr = false ∧
    (verify_token env tok now').isInternalErr = false := by
  refine ⟨?_, ?_, ?_, ?_⟩ <;>
    simp [create_token, verify_token, hs, Outcome.isInternalErr]

/-- Witness for C6 (amended) at a concrete environment. -/
theorem absent_secret_panics_witness :
    create_token ⟨none, some (str "30d")⟩ 9 UserRole.Admin 50 =
      .panic (str "JWT_SECRET must be set") ∧
    verify_token ⟨none, some (str "30d")⟩ (str "x") 50 =
      .panic (str "JWT_SECRET must be set") := by
  have h := absent_secret_panics ⟨none, some (str "30d")⟩ 9 UserRole.Admin 50
    (str "x") 50 rfl
  exact ⟨h.1, h.2.1⟩

/-! ## C7: expiration-window parsing -/

/-- Does the application error carry the `InternalError` variant? -/
def AppError.isInternal : AppError → Bool
  | .InternalError _ => true
  | _ => false

/-- Does this storage error carry a duplicate-key code? -/
def hasDupKeyCode : SqlxError → Bool
  | .Database code =>
    decide (code.getD (str "") = str "23000" ∨ code.getD (str "") = str "1062")
  | _ => false

/-- Does this storage error carry a foreign-key-constraint code? -/
def hasFkCode : SqlxError → Bool
  | .Database code =>
    decide (code.getD (str "") = str "23503" ∨ code.getD (str "") = str "1452")
  | _ => false

/-- Counterexample for C9 as stated: a storage error that is neither a
duplicate key, a foreign-key violation nor row-not-found is translated
to `AppError::DatabaseError`, not to `InternalError`. -/
theorem db_error_catchall_counterexample :
    map_db_error SqlxError.PoolTimedOut =
      AppError.DatabaseError SqlxError.PoolTimedOut ∧
    (map_db_error SqlxError.PoolTimedOut).isInternal = false := by
  decide

/-- C9 (amended): `map_db_error` translates duplicate-key codes to
`ConflictError`, foreign-key codes to `ValidationError`, row-not-found
to `NotFoundError`, and every other storage error to `DatabaseError`
(not `InternalError`), which like `InternalError` surfaces as HTTP
500 — so downstream code receives the application taxonomy rather
than raw storage error codes. -/
theorem db_error_translation (err : SqlxError) :
    (hasDupKeyCode err = true →
      map_db_error err = .ConflictError (str "Duplicate entry violation")) ∧
    (hasDupKeyCode err = false → hasFkCode err = true →
      map_db_error err = .ValidationError (str "Foreign key constraint violation")) ∧
    (err = .RowNotFound →
      map_db_error err = .NotFoundError (str "Resource not found")) ∧
    (hasDupKeyCode err = false → hasFkCode err = false → err ≠ .RowNotFound →
      ∃ e, map_db_error err = .DatabaseError e ∧
        statusCode (map_db_error err) = 500 ∧
        (map_db_error err).isInternal = false) := by
  cases err with
  | Database code =>
    by_cases h1 : code.getD (str "") = str "23000" ∨ code.getD (str "") = str "1062"
    · refine ⟨fun _ => ?_, ?_, ?_, ?_⟩
      · simp [map_db_error, h1]
      · intro hd _
        simp [hasDupKeyCode, h1] at hd
      · intro hcontra; exact nomatch hcontra
      · intro hd _ _
        simp [hasDupKeyCode, h1] at hd
    · by_cases h2 : code.getD (str "") = str "23503" ∨ code.getD (str "") = str "1452"
      · refine ⟨?_, fun _ _ => ?_, ?_, ?_⟩
        · intro hd
          simp [hasDupKeyCode, h1] at hd
        · simp [map_db_error, h1, h2]
        · intro hcontra; exact nomatch hcontra
        · intro _ hf _
          simp [hasFkCode, h2] at hf
      · refine ⟨?_, ?_, ?_, fun _ _ _ => ?_⟩
        · intro hd
          simp [hasDupKeyCode, h1] at hd
        · intro _ hf
          simp [hasFkCode, h2] at hf
        · intro hcontra; exact nomatch hcontra
        · exact ⟨.Database code, by simp [map_db_error, h1, h2],
            by simp [map_db_error, h1, h2, statusCode],
            by simp [map_db_error, h1, h2, AppError.isInternal]⟩
  | RowNotFound =>
    refine ⟨by simp [hasDupKeyCode], by simp [hasDupKeyCode, hasFkCode], ?_, ?_⟩
    · intro _; rfl
    · intro _ _ hcontra; exact absurd rfl hcontra
  | PoolTimedOut => exact ⟨by simp [hasDupKeyCode], by simp [hasDupKeyCode, hasFkCode],
      by simp, fun _ _ _ => ⟨_, rfl, rfl, rfl⟩⟩
  | PoolClosed => exact ⟨by simp [hasDupKeyCode], by simp [hasDupKeyCode, hasFkCode],
      by simp, fun _ _ _ => ⟨_, rfl, rfl, rfl⟩⟩
  | Io m => exact ⟨by simp [hasDupKeyCode], by simp [hasDupKeyCode, hasFkCode],
      by simp, fun _ _ _ => ⟨_, rfl, rfl, rfl⟩⟩
  | Decode m => exact ⟨by simp [hasDupKeyCode], by simp [hasDupKeyCode, hasFkCode],
      by simp, fun _ _ _ => ⟨_, rfl, rfl, rfl⟩⟩
  | ColumnNotFound n => exact ⟨by simp [hasDupKeyCode], by simp [hasDupKeyCode, hasFkCode],
      by simp, fun _ _ _ => ⟨_, rfl, rfl, rfl⟩⟩
  | Configuration m => exact ⟨by simp [hasDupKeyCode], by simp [hasDupKeyCode, hasFkCode],
      by simp, fun _ _ _ => ⟨_, rfl, rfl, rfl⟩⟩

/-- Witness for C9 (amended): the MySQL duplicate-entry code maps to
`ConflictError` and a pool-closed error maps to `DatabaseError`. -/
theorem db_error_translation_witness :
    map_db_error (SqlxError.Database (some (str "1062"))) =
      .ConflictError (str "Duplicate entry violation") ∧
    (∃ e, map_db_error SqlxError.PoolClosed = .DatabaseError e ∧
      statusCode (map_db_error SqlxError.PoolClosed) = 500 ∧
      (map_db_error SqlxError.PoolClosed).isInternal = false) :=
  ⟨(db_error_translation (SqlxError.Database (some (str "1062")))).1 (by decide),
    (db_error_translation SqlxError.PoolClosed).2.2.2 (by decide) (by decide)
      (by decide)⟩

/-! ## C10: NULL stored password never authenticates -/

/-- C10: a credential record whose stored password is `NULL` makes
`verify_password` fail with `AuthError("No password set for this
user")` — an unauthenticated outcome, never `InternalError`, never a
false success — and therefore both login flows (by email and by
phone) that reach password verification against such a record fail
with that same error and issue no token. -/
theorem null_password_never_authenticates
    (bv : Str → Str → Except Str Bool)
    (lookupE lookupP : Str → Except AppError UserWithPassword)
    (env : Env) (now : Int) (user : UserWithPassword) (pw : Str)
    (hpw : user.password = none) :
    verify_password bv user pw =
      .error (.AuthError (str "No password set for this user")) ∧
    (∀ dto : LoginDto, dto.email.isEmpty = false →
      dto.password.isEmpty = false → lookupE dto.email = .ok user →
      login bv lookupE env now dto =
        .err (.AuthError (str "No password set for this user"))) ∧
    (∀ dto : PhoneLoginDto, dto.phone.isEmpty = false →
      dto.password.isEmpty = false → lookupP dto.phone = .ok user →
      login_phone bv lookupP env now dto =
        .err (.AuthError (str "No password set for this user"))) := by
  refine ⟨?_, ?_, ?_⟩
  · simp [verify_password, hpw]
  · intro dto he hp hl
    simp [login, he, hp, hl, verify_password, hpw]
  · intro dto he hp hl
    simp [login_phone, he, hp, hl, verify_password, hpw]

/-- Witness for C10 at a concrete passwordless user and login
attempt. -/
theorem null_password_never_authenticates_witness :
    login (fun _ _ => .ok true)
      (fun _ => .ok ⟨1, some (str "a@b"), none, UserRole.User, str "F", str "L",
        none, none, none, some (str "123"), none, 0, 0⟩)
      ⟨some (str "K"), none⟩ 0 ⟨str "a@b", str "pw"⟩ =
      .err (.AuthError (str "No password set for this user")) :=
  (null_password_never_authenticates (fun _ _ => .ok true)
    (fun _ => .ok ⟨1, some (str "a@b"), none, UserRole.User, str "F", str "L",
      none, none, none, some (str "123"), none, 0, 0⟩)
    (fun _ => .ok ⟨1, some (str "a@b"), none, UserRole.User, str "F", str "L",
      none, none, none, some (str "123"), none, 0, 0⟩)
    ⟨some (str "K"), none⟩ 0
    ⟨1, some (str "a@b"), none, UserRole.User, str "F", str "L",
      none, none, none, some (str "123"), none, 0, 0⟩
    (str "pw") rfl).2.1 ⟨str "a@b", str "pw"⟩ rfl rfl rfl
